import Mathlib

/-!
Shallow embedding of `src/server.js` (ad-log-backend): the RSS fetch/cache
lifecycle, the scheduler arithmetic, and the summarize / TTS / clear-cache /
fetch-now HTTP handlers, together with theorems settling the spec claims.

External effects are made explicit parameters: the network result of each
feed URL is a `Option Feed` (none = the fetch or parse threw), the JS
runtime date parser `new Date(s)` is a parameter `pd : String → Option Int`
(none = Invalid Date, i.e. NaN milliseconds), the current instant is passed
as its already-formatted field values, and the OpenAI upstream calls are
explicit outcome values.
-/

namespace AdLog

/-- JS truthiness/defaulting `a || b` for an optional string field: the
falsy values of a string field are absence and the empty string. -/
def jsOrStr (a : Option String) (d : String) : String :=
  match a with
  | some t => if t = "" then d else t
  | none => d

/-- An article record, as built in `fetchRSSFeeds` from one feed item
(`server.js` lines 48-58). -/
structure Article where
  headline : String
  summary : String
  date : String
  link : String
  source : String
deriving Repr, DecidableEq

/-- One item of a parsed feed: the fields `fetchRSSFeeds` reads, each
optional as in the rss-parser output. -/
structure FeedItem where
  title : Option String
  contentSnippet : Option String
  summary : Option String
  pubDate : Option String
  link : Option String
deriving Repr, DecidableEq

/-- A successfully parsed feed (`parser.parseURL` result): its title and
its items (the code defaults `feed.items || []`, so we store the list). -/
structure Feed where
  title : Option String
  items : List FeedItem
deriving Repr, DecidableEq

/-- The module-level `cache` object (`server.js` lines 34-38).
`lastFetchDate` is `null` initially, hence an `Option String`. -/
structure Cache where
  articles : List Article
  timestamp : Nat
  lastFetchDate : Option String
deriving Repr, DecidableEq

/-- The initial cache `{articles: [], timestamp: 0, lastFetchDate: null}`. -/
def cache0 : Cache := ⟨[], 0, none⟩

/-- Normalization of one feed item into an Article (`server.js` 48-57):
`title || ''`, `contentSnippet || summary || ''`, `pubDate || ''`,
`link || ''`, `feed.title || ''`. -/
def normalizeItem (feedTitle : Option String) (item : FeedItem) : Article :=
  { headline := jsOrStr item.title ""
    summary := jsOrStr item.contentSnippet (jsOrStr item.summary "")
    date := jsOrStr item.pubDate ""
    link := jsOrStr item.link ""
    source := jsOrStr feedTitle "" }

/-- Articles produced from one successfully parsed feed. -/
def parseFeedArticles (feed : Feed) : List Article :=
  feed.items.map (normalizeItem feed.title)

/-- The feed loop of `fetchRSSFeeds` (lines 44-64): iterate the results in
URL-list order, `allItems = allItems.concat(items)` on success, and on a
per-feed throw (modelled as `none`) log and continue with the next feed. -/
def fetchAllItems (results : List (Option Feed)) : List Article :=
  results.foldl
    (fun allItems r =>
      match r with
      | some feed => allItems ++ parseFeedArticles feed
      | none => allItems)
    []

/-- The comparator `(a, b) => new Date(b.date) - new Date(a.date)` turned
into the "a may stay before b" Boolean of a stable sort: ECMAScript's
SortCompare coerces a NaN comparator value (either date unparseable) to +0,
and Array.prototype.sort is stable, so `a` stays before `b` exactly when
the comparator value is not positive. -/
def jsLe (pd : String → Option Int) (a b : Article) : Bool :=
  match pd a.date, pd b.date with
  | some x, some y => decide (y ≤ x)
  | _, _ => true

/-- Stable insertion of one element, placing `a` before the first `b` it
may stay before (the stable-sort model of `allItems.sort(comparator)`). -/
def jsOrderedInsert (pd : String → Option Int) (a : Article) :
    List Article → List Article
  | [] => [a]
  | b :: l => if jsLe pd a b then a :: b :: l else b :: jsOrderedInsert pd a l

/-- Stable sort used to model `allItems.sort((a, b) => new Date(b.date) -
new Date(a.date))` (`server.js` line 68). -/
def jsSort (pd : String → Option Int) : List Article → List Article
  | [] => []
  | a :: l => jsOrderedInsert pd a (jsSort pd l)

/-- The whole `fetchRSSFeeds` cycle (lines 41-80): collect items per feed,
sort, then replace the cache wholesale with
`{articles, timestamp: Date.now(), lastFetchDate: new Date().toISOString()}`.
`nowMs` models `Date.now()` and `nowIso` models `new Date().toISOString()`
at the instant the cycle completes. The previous cache is not consulted. -/
def fetchCycle (results : List (Option Feed)) (pd : String → Option Int)
    (nowMs : Nat) (nowIso : String) (_old : Cache) : Cache :=
  { articles := jsSort pd (fetchAllItems results)
    timestamp := nowMs
    lastFetchDate := some nowIso }

/-- `shouldFetchToday` (lines 83-91): true iff the current EST hour is 7
and `cache.lastFetchDate !== currentDate`, where `currentDate` is
`estTime.toDateString()`. A `null` lastFetchDate always differs. -/
def shouldFetchToday (c : Cache) (estHour : Nat) (estDateString : String) : Bool :=
  estHour == 7 && c.lastFetchDate != some estDateString

/-- Decimal rendering of `n` left-padded with zeros to width `w`, the digit
formatting used by both JS date-string methods below. -/
def padNum (w n : Nat) : String :=
  let s := toString n
  String.mk (List.replicate (w - s.length) '0') ++ s

/-- A UTC instant broken into the fields `Date.prototype.toISOString`
prints. -/
structure UTCTime where
  year : Nat
  month : Nat
  day : Nat
  hour : Nat
  minute : Nat
  second : Nat
  ms : Nat
deriving Repr, DecidableEq

/-- `Date.prototype.toISOString`: "YYYY-MM-DDTHH:mm:ss.sssZ" over the UTC
fields of the instant. This is the string `fetchRSSFeeds` stores into
`cache.lastFetchDate` (`server.js` line 73). -/
def toISOString (t : UTCTime) : String :=
  padNum 4 t.year ++ "-" ++ padNum 2 t.month ++ "-" ++ padNum 2 t.day ++ "T" ++
    padNum 2 t.hour ++ ":" ++ padNum 2 t.minute ++ ":" ++ padNum 2 t.second ++
    "." ++ padNum 3 t.ms ++ "Z"

/-- English three-letter weekday names used by `Date.prototype.toDateString`. -/
def weekdayNames : List String :=
  ["Sun", "Mon", "Tue", "Wed", "Thu", "Fri", "Sat"]

/-- English three-letter month names used by `Date.prototype.toDateString`. -/
def monthNames : List String :=
  ["Jan", "Feb", "Mar", "Apr", "May", "Jun",
   "Jul", "Aug", "Sep", "Oct", "Nov", "Dec"]

/-- `Date.prototype.toDateString`: "Ddd Mmm DD YYYY" over the local
(reference-zone, after the `toLocaleString` round-trip) fields. This is the
`currentDate` that `shouldFetchToday` compares against (line 87). `weekday`
is 0 = Sunday .. 6 = Saturday and `month` is 1-based. -/
def toDateString (weekday month day year : Nat) : String :=
  (weekdayNames.getD weekday "") ++ " " ++ (monthNames.getD (month - 1) "") ++
    " " ++ padNum 2 day ++ " " ++ padNum 4 year

/-- Response body of `GET /api/news` (lines 134-147). -/
structure NewsResponse where
  articles : List Article
  lastFetch : Option String
  cacheStatus : String
deriving Repr, DecidableEq

/-- Result of one `GET /api/news` request: the JSON response, the cache
left behind, and how many times `fetchRSSFeeds` ran during the request. -/
structure NewsOutcome where
  response : NewsResponse
  cache : Cache
  fetchesPerformed : Nat
deriving Repr, DecidableEq

/-- The `GET /api/news` handler (lines 125-149): run the catch-up fetch if
`shouldFetchToday`, then serve the cache if non-empty, else fetch once more
("initial fetch") and serve whatever the cache then holds. `estHour`,
`estDateString` are the request-time EST fields; `results`, `pd`, `nowMs`,
`nowIso` are the environment a fetch cycle during this request would see. -/
def getNewsHandler (estHour : Nat) (estDateString : String)
    (results : List (Option Feed)) (pd : String → Option Int)
    (nowMs : Nat) (nowIso : String) (c : Cache) : NewsOutcome :=
  let c1 := if shouldFetchToday c estHour estDateString then
      fetchCycle results pd nowMs nowIso c
    else c
  let n1 := if shouldFetchToday c estHour estDateString then 1 else 0
  if c1.articles.length > 0 then
    ⟨⟨c1.articles, c1.lastFetchDate, "serving cached data"⟩, c1, n1⟩
  else
    let c2 := fetchCycle results pd nowMs nowIso c1
    ⟨⟨c2.articles, c2.lastFetchDate, "initial fetch"⟩, c2, n1 + 1⟩

/-- The `POST /api/clear-cache` handler (lines 259-262): reset the cache to
the initial empty state and answer with a message. -/
def clearCacheHandler (_c : Cache) : String × Cache :=
  ("Cache cleared", ⟨[], 0, none⟩)

/-- Response body of `POST /api/fetch-now` (lines 268-272). -/
structure FetchNowResponse where
  status : Nat
  message : String
  articlesCount : Nat
  lastFetch : Option String
deriving Repr, DecidableEq

/-- The `POST /api/fetch-now` handler (lines 265-273): run a fetch cycle
unconditionally, then report the length of the (new) cached article list
and its `lastFetchDate`. -/
def fetchNowHandler (results : List (Option Feed)) (pd : String → Option Int)
    (nowMs : Nat) (nowIso : String) (c : Cache) : FetchNowResponse × Cache :=
  let c1 := fetchCycle results pd nowMs nowIso c
  (⟨200, "Manual fetch completed", c1.articles.length, c1.lastFetchDate⟩, c1)

/-- The wall-clock fields of the current instant in the reference zone
(US Eastern), as read by `scheduleNextFetch` after the `toLocaleString`
round-trip (`server.js` lines 95-98; the round-trip zeroes `ms`, but the
model keeps the field general). -/
structure ESTClock where
  hour : Nat
  minute : Nat
  second : Nat
  ms : Nat
deriving Repr, DecidableEq

/-- Milliseconds since the reference-zone midnight of the current day. -/
def timeOfDayMs (t : ESTClock) : Nat :=
  t.hour * 3600000 + t.minute * 60000 + t.second * 1000 + t.ms

/-- Whether `scheduleNextFetch` targets tomorrow (current EST hour ≥ 7,
line 102) or today (line 107). 1 = tomorrow, 0 = today. -/
def targetDayOffset (t : ESTClock) : Nat :=
  if t.hour ≥ 7 then 1 else 0

/-- The target instant of `scheduleNextFetch` — 7:00:00.000 today or
tomorrow — in milliseconds since today's reference-zone midnight
(`setDate(+1)` then `setHours(7,0,0,0)`, lines 104-110). -/
def nextFetchTargetMs (t : ESTClock) : Int :=
  (targetDayOffset t : Int) * 86400000 + 7 * 3600000

/-- `timeUntilNextFetch = nextFetchTime.getTime() - estTime.getTime()`
(line 113): the armed delay is target minus now, both in the reference
zone. -/
def timeUntilNextFetch (t : ESTClock) : Int :=
  nextFetchTargetMs t - (timeOfDayMs t : Int)

/-- The parsed JSON body of the chat-completion upstream response, reduced
to the two facts the handler can observe: HTTP success flag (which the
summarize handler never reads) and `choices?.[0]?.message?.content`
(absent on error bodies). -/
structure ChatApiResponse where
  ok : Bool
  content : Option String
deriving Repr, DecidableEq

/-- Outcome of `await fetch(...)` plus `await openaiRes.json()` in the
summarize handler: `Except.error msg` models either call throwing
(transport failure / invalid JSON) with `err.message = msg`, and
`Except.ok` a parsed body. -/
abbrev ChatUpstream := Except String ChatApiResponse

/-- Result of one `POST /api/summarize` request. -/
inductive SummarizeResult where
  | success (summary : String)
  | badRequest (error : String)
  | serverError (error details : String)
deriving Repr, DecidableEq

/-- Whitespace test of the JS regex class `\s` and of
`String.prototype.trim` for the ASCII inputs involved. -/
def jsIsSpace (c : Char) : Bool := c.isWhitespace

/-- `String.prototype.trim` on the character list: drop whitespace from
both ends. -/
def trimChars (l : List Char) : List Char :=
  ((l.dropWhile jsIsSpace).reverse.dropWhile jsIsSpace).reverse

/-- `String.prototype.trim`. (Character-list implementation so that
concrete instances evaluate by kernel reduction.) -/
def jsTrim (s : String) : String := String.mk (trimChars s.data)

/-- `s.startsWith('-')`: the first character is a dash. -/
def startsWithDash (s : String) : Bool :=
  match s.data with
  | c :: _ => c == '-'
  | [] => false

/-- Split a character list at every newline, keeping empty segments (the
way `split(/\n/)` would; see `bulletItems` for why this models the
`/\n+/` of the source). -/
def splitNewlines : List Char → List (List Char)
  | [] => [[]]
  | c :: rest =>
    match splitNewlines rest with
    | [] => [[]]
    | seg :: segs =>
      if c == '\n' then [] :: seg :: segs else (c :: seg) :: segs

/-- One line through `line.replace(/^\s*-\s*/, '')` (line 176): strip
leading whitespace, one dash, and the whitespace after it; if there is no
dash after the leading whitespace the regex does not match and the line is
returned unchanged. -/
def stripBulletChars (l : List Char) : List Char :=
  match l.dropWhile jsIsSpace with
  | '-' :: rest => rest.dropWhile jsIsSpace
  | _ => l

/-- `summaryRaw.split(/\n+/).map(line => line.replace(/^\s*-\s*/, '')
.trim()).filter(Boolean)` (line 176). Splitting at every single newline
instead of at runs of newlines is equivalent: the extra segments between
adjacent newlines are empty, stay empty through the replace and `trim`,
and are removed by the `filter(Boolean)`, which keeps exactly the
non-empty strings. -/
def bulletItems (summaryRaw : String) : List String :=
  (((splitNewlines summaryRaw.data).map
      (fun line => String.mk (trimChars (stripBulletChars line)))).filter
    (fun s => s != ""))

/-- The bullet-reformatting step of the summarize handler (lines 173-178):
trim-extracted content starting with a dash becomes an unordered HTML
list, anything else is returned as-is. -/
def formatSummary (summaryRaw : String) : String :=
  if startsWithDash summaryRaw then
    "<ul style=\"padding-left:1.5em;list-style:disc;\">" ++
      String.join ((bulletItems summaryRaw).map
        (fun item => "<li>" ++ item ++ "</li>")) ++ "</ul>"
  else summaryRaw

/-- The content extraction `data.choices?.[0]?.message?.content?.trim() || ''`
(line 173). -/
def extractContent (resp : ChatApiResponse) : String :=
  match resp.content with
  | some c => jsTrim c
  | none => ""

/-- The `POST /api/summarize` handler (lines 151-183): 400 on falsy text;
otherwise forward to the upstream, extract the first choice's content
(empty when absent — the handler never checks `openaiRes.ok`), reformat
bullets, and answer 200; the catch clause (transport / JSON-parse throw)
answers 500 with details. -/
def summarizeHandler (text : Option String) (upstream : ChatUpstream) :
    SummarizeResult :=
  if jsOrStr text "" = "" then .badRequest "Missing text"
  else
    match upstream with
    | .error msg => .serverError "Failed to summarize" msg
    | .ok resp => .success (formatSummary (extractContent resp))

/-- Outcome of `await fetch(...)` against the TTS upstream: a non-ok HTTP
response with its status and parsed error body, or the audio bytes of an
ok response. -/
inductive TTSUpstream where
  | err (status : Nat) (body : String)
  | ok (audio : List Nat)
deriving Repr, DecidableEq

/-- The flat `tts_cache` directory as an association of file names to byte
contents. -/
abbrev FileStore := List (String × List Nat)

/-- `fs.existsSync` + read: the bytes stored under a file name, if any. -/
def fsLookup (files : FileStore) (name : String) : Option (List Nat) :=
  (List.find? (fun p => p.1 == name) files).map Prod.snd

/-- `fs.writeFileSync`: store bytes under a name, replacing any previous
content. -/
def fsWrite (files : FileStore) (name : String) (content : List Nat) :
    FileStore :=
  (name, content) :: List.filter (fun p => p.1 != name) files

/-- The HTTP response of one `POST /api/tts` request: status, the three
headers the success paths set, and the body bytes (empty on JSON error
responses, whose error text is in `error`). -/
structure TTSResponse where
  status : Nat
  contentType : Option String
  contentLength : Option Nat
  cacheControl : Option String
  body : List Nat
  error : Option String
deriving Repr, DecidableEq

/-- Result of one `POST /api/tts` request: the response, the cache
directory left behind, and how many upstream TTS calls were made. -/
structure TTSOutcome where
  response : TTSResponse
  files : FileStore
  upstreamCalls : Nat
deriving Repr, DecidableEq

/-- The `POST /api/tts` handler (lines 186-256): 400 on falsy text; name
the cache file by the content digest of the text (`hashFn` models the
sha256 hex digest); serve an existing file directly with audio headers
and no upstream call; otherwise call upstream once — propagating a non-ok
status as a JSON error — and on success write the cache file and serve the
bytes with the same headers. -/
def ttsHandler (hashFn : String → String) (upstream : TTSUpstream)
    (text : Option String) (files : FileStore) : TTSOutcome :=
  if jsOrStr text "" = "" then
    ⟨⟨400, none, none, none, [], some "Missing text"⟩, files, 0⟩
  else
    let cacheFile := hashFn (jsOrStr text "") ++ ".mp3"
    match fsLookup files cacheFile with
    | some bytes =>
        ⟨⟨200, some "audio/mpeg", some bytes.length, some "public, max-age=3600",
          bytes, none⟩, files, 0⟩
    | none =>
        match upstream with
        | .err status _body =>
            ⟨⟨status, none, none, none, [], some "TTS failed"⟩, files, 1⟩
        | .ok audio =>
            ⟨⟨200, some "audio/mpeg", some audio.length, some "public, max-age=3600",
              audio, none⟩, fsWrite files cacheFile audio, 1⟩

/-- The parsed-date value of an article under parser `pd`, defaulting to 0;
used in statements only under the hypothesis that the date parses. -/
def pdVal (pd : String → Option Int) (a : Article) : Int :=
  (pd a.date).getD 0

/-- Finite model of the runtime date parser `new Date(s)` at the strings
the concrete theorems below exercise: two RFC-2822 dates parse to their
epoch milliseconds; everything else — the empty string included — is an
Invalid Date, i.e. NaN (ECMA-262, Date parsing of an unrecognized or empty
string). -/
def pdDemo : String → Option Int := fun s =>
  if s = "Wed, 01 Jan 2025 00:00:00 GMT" then some 1735689600000
  else if s = "Thu, 02 Jan 2025 00:00:00 GMT" then some 1735776000000
  else none

/-- A feed item with no publish date (normalizes to `date = ""`). -/
def itemE : FeedItem := ⟨some "E", none, none, none, none⟩

/-- A feed item dated 1 Jan 2025. -/
def itemA : FeedItem :=
  ⟨some "A", none, none, some "Wed, 01 Jan 2025 00:00:00 GMT", none⟩

/-- A feed item dated 2 Jan 2025. -/
def itemB : FeedItem :=
  ⟨some "B", none, none, some "Thu, 02 Jan 2025 00:00:00 GMT", none⟩

/-- A demo feed whose first item has an empty date and whose second has a
parseable one. -/
def demoFeed : Feed := ⟨some "Demo Feed", [itemE, itemA]⟩

/-- A demo feed whose items both carry parseable dates, older first. -/
def demoFeedDated : Feed := ⟨some "Demo Feed", [itemA, itemB]⟩

/-- The article `itemE` normalizes to. -/
def articleE : Article := ⟨"E", "", "", "", "Demo Feed"⟩

/-- The article `itemA` normalizes to. -/
def articleA : Article :=
  ⟨"A", "", "Wed, 01 Jan 2025 00:00:00 GMT", "", "Demo Feed"⟩

/-- The article `itemB` normalizes to. -/
def articleB : Article :=
  ⟨"B", "", "Thu, 02 Jan 2025 00:00:00 GMT", "", "Demo Feed"⟩

/-- A cache as left by an earlier successful fetch: non-empty articles and
a `lastFetchDate` in the ISO format `fetchRSSFeeds` stores. -/
def cacheNonEmpty : Cache :=
  ⟨[articleA], 10, some "2026-10-11T11:20:00.000Z"⟩

/-! ### Helper lemmas about the feed loop and the sort -/

/-- The feed-loop fold starting from any accumulator prepends the
accumulator to the fold started from nil. -/
theorem fetchAllItems_acc (rs : List (Option Feed)) :
    ∀ acc : List Article,
      List.foldl
        (fun allItems r =>
          match r with
          | some feed => allItems ++ parseFeedArticles feed
          | none => allItems) acc rs
      = acc ++ fetchAllItems rs := by
  induction rs with
  | nil =>
    intro acc
    simp [fetchAllItems]
  | cons r rs ih =>
    intro acc
    cases r with
    | none =>
      simpa [fetchAllItems, List.foldl_cons] using ih acc
    | some f =>
      simp only [fetchAllItems, List.foldl_cons] at *
      rw [ih, ih]
      simp only [List.append_assoc, List.nil_append, List.append_cancel_left_eq]
      exact (ih (parseFeedArticles f)).symm

/-- A failing feed contributes nothing. -/
theorem fetchAllItems_cons_none (rs : List (Option Feed)) :
    fetchAllItems (none :: rs) = fetchAllItems rs := rfl

/-- A succeeding feed contributes its articles in front, in URL-list
order. -/
theorem fetchAllItems_cons_some (f : Feed) (rs : List (Option Feed)) :
    fetchAllItems (some f :: rs) = parseFeedArticles f ++ fetchAllItems rs :=
  fetchAllItems_acc rs (parseFeedArticles f)

/-- When every feed fails, the loop collects nothing. -/
theorem fetchAllItems_of_allFail (rs : List (Option Feed))
    (h : ∀ r ∈ rs, r = none) : fetchAllItems rs = [] := by
  induction rs with
  | nil => rfl
  | cons r rs ih =>
    have hr : r = none := h r (by simp)
    subst hr
    rw [fetchAllItems_cons_none]
    exact ih (fun x hx => h x (by simp [hx]))

/-- Membership in a stable insertion comes from the new element or the
old list. -/
theorem mem_jsOrderedInsert (pd : String → Option Int) (x a : Article) :
    ∀ l : List Article, a ∈ jsOrderedInsert pd x l → a = x ∨ a ∈ l := by
  intro l
  induction l with
  | nil =>
    intro h
    simp [jsOrderedInsert] at h
    exact Or.inl h
  | cons b l ih =>
    intro h
    rw [jsOrderedInsert] at h
    split at h
    · rw [List.mem_cons] at h
      exact h
    · rw [List.mem_cons] at h
      rcases h with h | h
      · exact Or.inr (by simp [h])
      · rcases ih h with h' | h'
        · exact Or.inl h'
        · exact Or.inr (by simp [h'])

/-- The sort only permutes: every member of the output was in the input. -/
theorem mem_jsSort (pd : String → Option Int) (a : Article) :
    ∀ l : List Article, a ∈ jsSort pd l → a ∈ l := by
  intro l
  induction l with
  | nil =>
    intro h
    simp [jsSort] at h
  | cons x l ih =>
    intro h
    rw [jsSort] at h
    rcases mem_jsOrderedInsert pd x a _ h with h' | h'
    · simp [h']
    · simp [ih h']

/-- On articles whose dates both parse, `jsLe` is exactly the descending
comparison of the parsed values. -/
theorem jsLe_eq_of_isSome (pd : String → Option Int) (a b : Article)
    (ha : (pd a.date).isSome) (hb : (pd b.date).isSome) :
    jsLe pd a b = decide (pdVal pd b ≤ pdVal pd a) := by
  rcases Option.isSome_iff_exists.mp ha with ⟨x, hx⟩
  rcases Option.isSome_iff_exists.mp hb with ⟨y, hy⟩
  simp [jsLe, pdVal, hx, hy]

/-- Inserting a parseable-dated article into a descending-ordered list of
parseable-dated articles keeps it descending. -/
theorem pairwise_jsOrderedInsert (pd : String → Option Int) (x : Article)
    (hx : (pd x.date).isSome) :
    ∀ l : List Article, (∀ a ∈ l, (pd a.date).isSome) →
      l.Pairwise (fun a b => pdVal pd b ≤ pdVal pd a) →
      (jsOrderedInsert pd x l).Pairwise (fun a b => pdVal pd b ≤ pdVal pd a) := by
  intro l
  induction l with
  | nil =>
    intro _ _
    simp [jsOrderedInsert]
  | cons b l ih =>
    intro hall hp
    have hb : (pd b.date).isSome := hall b (by simp)
    rcases List.pairwise_cons.mp hp with ⟨hbl, hpl⟩
    rw [jsOrderedInsert]
    split
    case isTrue hle =>
      rw [jsLe_eq_of_isSome pd x b hx hb, decide_eq_true_eq] at hle
      refine List.pairwise_cons.mpr ⟨?_, hp⟩
      intro c hc
      rcases List.mem_cons.mp hc with h' | h'
      · subst h'
        exact hle
      · exact le_trans (hbl c h') hle
    case isFalse hle =>
      rw [jsLe_eq_of_isSome pd x b hx hb, decide_eq_true_eq] at hle
      push_neg at hle
      refine List.pairwise_cons.mpr
        ⟨?_, ih (fun a ha => hall a (by simp [ha])) hpl⟩
      intro c hc
      rcases mem_jsOrderedInsert pd x c l hc with h' | h'
      · subst h'
        exact le_of_lt hle
      · exact hbl c h'

/-- Sorting a list of articles whose dates all parse yields a list
descending in the parsed date. -/
theorem pairwise_jsSort (pd : String → Option Int) :
    ∀ l : List Article, (∀ a ∈ l, (pd a.date).isSome) →
      (jsSort pd l).Pairwise (fun a b => pdVal pd b ≤ pdVal pd a) := by
  intro l
  induction l with
  | nil =>
    intro _
    simp [jsSort]
  | cons x l ih =>
    intro hall
    rw [jsSort]
    refine pairwise_jsOrderedInsert pd x (hall x (by simp)) _ ?_ ?_
    · intro a ha
      exact hall a (by simp [mem_jsSort pd a l ha])
    · exact ih (fun a ha => hall a (by simp [ha]))

/-- A freshly written cache file is found under its own name with its own
content. -/
theorem fsLookup_fsWrite_self (files : FileStore) (name : String)
    (content : List Nat) :
    fsLookup (fsWrite files name content) name = some content := by
  simp [fsLookup, fsWrite, List.find?_cons]

/-! ### Claim theorems -/

/-- C1: the claim says a successful fetch sets `lastFetchDate` to the
current reference-zone calendar date string so that `shouldFetchToday`
short-circuits for the rest of that day. The code instead stores
`new Date().toISOString()` — a UTC timestamp such as
"2026-10-11T11:20:00.000Z" — while `shouldFetchToday` compares against
`estTime.toDateString()` — "Sat Oct 11 2026" — so the two strings never
match. Evaluation at the failing input: a fetch completes at 07:20 EST
(11:20 UTC) on Sat 11 Oct 2026; a `GET /api/news` at 07:25 EST the same
day still finds `shouldFetchToday = true` and performs a second catch-up
fetch, where the claim requires zero. -/
theorem C1_noDailyShortCircuit :
    (fetchCycle [some demoFeed] pdDemo 1760181600000
        (toISOString ⟨2026, 10, 11, 11, 20, 0, 0⟩) cache0).lastFetchDate
      = some "2026-10-11T11:20:00.000Z"
    ∧ shouldFetchToday
        (fetchCycle [some demoFeed] pdDemo 1760181600000
          (toISOString ⟨2026, 10, 11, 11, 20, 0, 0⟩) cache0)
        7 (toDateString 6 10 11 2026) = true
    ∧ (getNewsHandler 7 (toDateString 6 10 11 2026) [some demoFeed] pdDemo
        1760181900000 (toISOString ⟨2026, 10, 11, 11, 25, 0, 0⟩)
        (fetchCycle [some demoFeed] pdDemo 1760181600000
          (toISOString ⟨2026, 10, 11, 11, 20, 0, 0⟩) cache0)).fetchesPerformed
      = 1 := by
  decide

/-- C2: for every feed-result list in which at least one feed fails, the
fetch loop (a total function — it cannot throw) collects exactly the
concatenation, in URL-list order, of the articles of the succeeding
feeds; failing feeds contribute zero articles. -/
theorem C2_failedFeedsAreSkipped (results : List (Option Feed))
    (_h : none ∈ results) :
    fetchAllItems results =
      ((results.filterMap id).map parseFeedArticles).flatten := by
  clear _h
  induction results with
  | nil => rfl
  | cons r rs ih =>
    cases r with
    | none => simp [fetchAllItems_cons_none, ih]
    | some f => simp [fetchAllItems_cons_some, ih]

/-- Witness for C2 at a concrete list with one failing and one succeeding
feed. -/
theorem C2_witness :
    none ∈ [none, some demoFeed]
    ∧ fetchAllItems [none, some demoFeed] =
        (([none, some demoFeed].filterMap id).map parseFeedArticles).flatten :=
  ⟨by decide, C2_failedFeedsAreSkipped [none, some demoFeed] (by decide)⟩

/-- C3 as stated is false: `new Date('')` is an Invalid Date (NaN), not the
epoch, so the comparator value is NaN, ECMAScript coerces it to +0, and the
stable sort leaves the empty-dated article where it was. Concretely, a
cycle collecting first an article with an empty date and then one with a
parseable date returns the empty-dated article first — not after all
parseable-dated articles. -/
theorem C3_counterexample :
    (fetchCycle [some demoFeed] pdDemo 0 "2026-10-11T11:20:00.000Z"
        cache0).articles = [articleE, articleA]
    ∧ articleE.date = ""
    ∧ pdDemo articleA.date = some 1735689600000 := by
  decide

/-- C3 (amended): after every completed fetch cycle the cached list is the
stable sort of the collected articles under the comparator
`new Date(b.date) - new Date(a.date)`, where a comparison involving an
unparseable date is NaN and therefore ties; hence whenever every collected
article's date parses, the cached list is sorted descending by parsed
date. Articles with empty (unparseable) dates are not pushed to the end —
they keep their position relative to the articles they tie with. -/
theorem C3_sortedDescendingWhenParseable (results : List (Option Feed))
    (pd : String → Option Int) (nowMs : Nat) (nowIso : String) (old : Cache)
    (h : ∀ a ∈ fetchAllItems results, (pd a.date).isSome) :
    ((fetchCycle results pd nowMs nowIso old).articles).Pairwise
      (fun a b => pdVal pd b ≤ pdVal pd a) :=
  pairwise_jsSort pd (fetchAllItems results) h

/-- Witness for the amended C3 at a concrete all-parseable feed. -/
theorem C3_witness :
    (∀ a ∈ fetchAllItems [some demoFeedDated], (pdDemo a.date).isSome)
    ∧ ((fetchCycle [some demoFeedDated] pdDemo 0 "2025-01-03T00:00:00.000Z"
          cache0).articles).Pairwise
        (fun a b => pdVal pdDemo b ≤ pdVal pdDemo a) :=
  ⟨by decide,
   C3_sortedDescendingWhenParseable [some demoFeedDated] pdDemo 0
     "2025-01-03T00:00:00.000Z" cache0 (by decide)⟩

/-- C4 as stated is false: `fetchRSSFeeds` replaces the cache wholesale,
so a cycle in which every feed fails overwrites a non-empty cache with the
empty list. Concretely: starting from a non-empty cache left by a
successful fetch, a cycle whose feeds all fail leaves `articles = []`. -/
theorem C4_counterexample :
    cacheNonEmpty.articles ≠ []
    ∧ (fetchCycle [none, none] pdDemo 20 "2026-10-12T11:20:00.000Z"
        cacheNonEmpty).articles = [] := by
  decide

/-- C4 (amended): a completed fetch cycle replaces the cache wholesale
with the articles collected in that cycle regardless of the previous
contents; in particular a cycle in which every feed fails empties the
cache (and still stamps `lastFetchDate`), so a previously non-empty cache
does not survive an all-fail cycle and the system can serve an empty
response again. -/
theorem C4_allFailCycleEmptiesCache (results : List (Option Feed))
    (pd : String → Option Int) (nowMs : Nat) (nowIso : String) (old : Cache)
    (h : ∀ r ∈ results, r = none) :
    (fetchCycle results pd nowMs nowIso old).articles = []
    ∧ (fetchCycle results pd nowMs nowIso old).lastFetchDate = some nowIso := by
  constructor
  · show jsSort pd (fetchAllItems results) = []
    rw [fetchAllItems_of_allFail results h]
    rfl
  · rfl

/-- Witness for the amended C4: an all-fail cycle over a non-empty cache. -/
theorem C4_witness :
    (∀ r ∈ ([none, none] : List (Option Feed)), r = none)
    ∧ (fetchCycle [none, none] pdDemo 20 "2026-10-12T11:20:00.000Z"
          cacheNonEmpty).articles = []
    ∧ (fetchCycle [none, none] pdDemo 20 "2026-10-12T11:20:00.000Z"
          cacheNonEmpty).lastFetchDate = some "2026-10-12T11:20:00.000Z" :=
  ⟨by decide,
   (C4_allFailCycleEmptiesCache [none, none] pdDemo 20
      "2026-10-12T11:20:00.000Z" cacheNonEmpty (by decide)).1,
   (C4_allFailCycleEmptiesCache [none, none] pdDemo 20
      "2026-10-12T11:20:00.000Z" cacheNonEmpty (by decide)).2⟩

/-- C5 as stated is false: the summarize handler never checks
`openaiRes.ok`, so a non-success API response (here `ok = false` with no
`choices`) is not surfaced as a 500 — the handler extracts an empty
content and answers 200 with an empty summary. -/
theorem C5_counterexample :
    summarizeHandler (some "hello")
        (Except.ok { ok := false, content := none }) =
      SummarizeResult.success "" := by
  decide

/-- C5 (amended): for truthy text, the summarize operation answers
500 with error and details only when the upstream call throws (transport
error or body-parse failure); a non-success API response — whose body
carries no `choices` content — is not detected and yields a 200 success
with an empty summary. -/
theorem C5_upstreamFailureBehavior (text : Option String)
    (h : jsOrStr text "" ≠ "") (msg : String) (resp : ChatApiResponse) :
    summarizeHandler text (Except.error msg)
        = SummarizeResult.serverError "Failed to summarize" msg
    ∧ (resp.content = none →
        summarizeHandler text (Except.ok resp)
          = SummarizeResult.success "") := by
  constructor
  · simp [summarizeHandler, h]
  · intro hc
    have hsw : startsWithDash "" = false := by decide
    simp [summarizeHandler, h, extractContent, hc, formatSummary, hsw]

/-- Witness for the amended C5 at concrete text and upstream outcomes. -/
theorem C5_witness :
    jsOrStr (some "hello world") "" ≠ ""
    ∧ summarizeHandler (some "hello world") (Except.error "socket hang up")
        = SummarizeResult.serverError "Failed to summarize" "socket hang up"
    ∧ summarizeHandler (some "hello world")
          (Except.ok { ok := false, content := none })
        = SummarizeResult.success "" :=
  ⟨by decide,
   (C5_upstreamFailureBehavior (some "hello world") (by decide)
      "socket hang up" { ok := false, content := none }).1,
   (C5_upstreamFailureBehavior (some "hello world") (by decide)
      "socket hang up" { ok := false, content := none }).2 rfl⟩

/-- C6 as stated is false: after `POST /api/clear-cache`, a `GET /api/news`
with every feed failing does answer (no throw) with an empty article list,
but `lastFetch` is not null — the all-fail fetch cycle that the empty
cache triggers still stamps `lastFetchDate` with the current ISO
timestamp. Concrete run: clear, then news at 12:00 EST with both feeds
down, answers `lastFetch = some "2026-10-12T16:00:00.000Z"`. -/
theorem C6_counterexample :
    (getNewsHandler 12 (toDateString 0 10 12 2026) [none, none] pdDemo 99
        (toISOString ⟨2026, 10, 12, 16, 0, 0, 0⟩)
        (clearCacheHandler cacheNonEmpty).2).response.articles = []
    ∧ (getNewsHandler 12 (toDateString 0 10 12 2026) [none, none] pdDemo 99
        (toISOString ⟨2026, 10, 12, 16, 0, 0, 0⟩)
        (clearCacheHandler cacheNonEmpty).2).response.lastFetch
      = some "2026-10-12T16:00:00.000Z"
    ∧ (some "2026-10-12T16:00:00.000Z" : Option String) ≠ none := by
  decide

/-- C6 (amended): `POST /api/clear-cache` resets the cache to the empty
initial state, and a subsequent `GET /api/news` in which no feed is
reachable responds without throwing with an empty article list,
`cacheStatus = "initial fetch"`, and `lastFetch` equal to the ISO
timestamp of the failed fetch attempt (non-null), because even an
all-fail cycle updates `lastFetchDate`. -/
theorem C6_clearThenNewsAllFail (c : Cache) (estHour : Nat) (d : String)
    (results : List (Option Feed)) (pd : String → Option Int)
    (nowMs : Nat) (nowIso : String) (h : ∀ r ∈ results, r = none) :
    (getNewsHandler estHour d results pd nowMs nowIso
        (clearCacheHandler c).2).response
      = ⟨[], some nowIso, "initial fetch"⟩ := by
  have hempty : jsSort pd (fetchAllItems results) = [] := by
    rw [fetchAllItems_of_allFail results h]
    rfl
  by_cases hc : shouldFetchToday ⟨[], 0, none⟩ estHour d
  · simp [getNewsHandler, clearCacheHandler, hc, fetchCycle, hempty]
  · simp [getNewsHandler, clearCacheHandler, hc, fetchCycle, hempty]

/-- Witness for the amended C6 at a concrete cleared cache and all-fail
feed list. -/
theorem C6_witness :
    (∀ r ∈ ([none, none] : List (Option Feed)), r = none)
    ∧ (getNewsHandler 12 "Mon Oct 12 2026" [none, none] pdDemo 99
          "2026-10-12T16:00:00.000Z" (clearCacheHandler cache0).2).response
        = ⟨[], some "2026-10-12T16:00:00.000Z", "initial fetch"⟩ :=
  ⟨by decide,
   C6_clearThenNewsAllFail cache0 12 "Mon Oct 12 2026" [none, none] pdDemo 99
     "2026-10-12T16:00:00.000Z" (by decide)⟩

/-- C7: for two successive `POST /api/tts` requests with the same
non-empty text whose digest has no cache file yet, the first request makes
exactly one upstream call and writes exactly one cache file named by the
content digest, and the second request makes zero upstream calls and
serves the byte-identical cached bytes with the audio/mpeg content type,
the content length, and the one-hour public cache-control header. -/
theorem C7_ttsCachesByDigest (hashFn : String → String) (audio : List Nat)
    (text : String) (hT : text ≠ "") (files : FileStore)
    (hMiss : fsLookup files (hashFn text ++ ".mp3") = none) :
    (ttsHandler hashFn (TTSUpstream.ok audio) (some text) files).upstreamCalls
        = 1
    ∧ (ttsHandler hashFn (TTSUpstream.ok audio) (some text) files).files
        = fsWrite files (hashFn text ++ ".mp3") audio
    ∧ (ttsHandler hashFn (TTSUpstream.ok audio) (some text) files).response
        = ⟨200, some "audio/mpeg", some audio.length,
           some "public, max-age=3600", audio, none⟩
    ∧ (ttsHandler hashFn (TTSUpstream.ok audio) (some text)
          (ttsHandler hashFn (TTSUpstream.ok audio) (some text) files).files
        ).upstreamCalls = 0
    ∧ (ttsHandler hashFn (TTSUpstream.ok audio) (some text)
          (ttsHandler hashFn (TTSUpstream.ok audio) (some text) files).files
        ).files
      = (ttsHandler hashFn (TTSUpstream.ok audio) (some text) files).files
    ∧ (ttsHandler hashFn (TTSUpstream.ok audio) (some text)
          (ttsHandler hashFn (TTSUpstream.ok audio) (some text) files).files
        ).response
      = ⟨200, some "audio/mpeg", some audio.length,
         some "public, max-age=3600", audio, none⟩ := by
  have hjs : jsOrStr (some text) "" = text := by simp [jsOrStr, hT]
  have h1 : ttsHandler hashFn (TTSUpstream.ok audio) (some text) files
      = ⟨⟨200, some "audio/mpeg", some audio.length,
          some "public, max-age=3600", audio, none⟩,
         fsWrite files (hashFn text ++ ".mp3") audio, 1⟩ := by
    simp [ttsHandler, hjs, hT, hMiss]
  have h2 : ttsHandler hashFn (TTSUpstream.ok audio) (some text)
        (fsWrite files (hashFn text ++ ".mp3") audio)
      = ⟨⟨200, some "audio/mpeg", some audio.length,
          some "public, max-age=3600", audio, none⟩,
         fsWrite files (hashFn text ++ ".mp3") audio, 0⟩ := by
    simp [ttsHandler, hjs, hT, fsLookup_fsWrite_self]
  rw [h1]
  rw [h2]
  simp

/-- Witness for C7 at a concrete text, digest function, audio payload, and
empty cache directory. -/
theorem C7_witness :
    ("quarterly ad spend" ≠ "")
    ∧ fsLookup [] ((fun s => s) "quarterly ad spend" ++ ".mp3") = none
    ∧ (ttsHandler (fun s => s) (TTSUpstream.ok [7, 8, 9])
          (some "quarterly ad spend") []).upstreamCalls = 1
    ∧ (ttsHandler (fun s => s) (TTSUpstream.ok [7, 8, 9])
          (some "quarterly ad spend")
          (ttsHandler (fun s => s) (TTSUpstream.ok [7, 8, 9])
            (some "quarterly ad spend") []).files).upstreamCalls = 0
    ∧ (ttsHandler (fun s => s) (TTSUpstream.ok [7, 8, 9])
          (some "quarterly ad spend")
          (ttsHandler (fun s => s) (TTSUpstream.ok [7, 8, 9])
            (some "quarterly ad spend") []).files).response
        = ⟨200, some "audio/mpeg", some 3, some "public, max-age=3600",
           [7, 8, 9], none⟩ :=
  ⟨by decide, by decide,
   (C7_ttsCachesByDigest (fun s => s) [7, 8, 9] "quarterly ad spend"
      (by decide) [] (by decide)).1,
   (C7_ttsCachesByDigest (fun s => s) [7, 8, 9] "quarterly ad spend"
      (by decide) [] (by decide)).2.2.2.1,
   (C7_ttsCachesByDigest (fun s => s) [7, 8, 9] "quarterly ad spend"
      (by decide) [] (by decide)).2.2.2.2.2⟩

/-- C8: upstream content that starts with a dash is reformatted into the
unordered HTML list — for content "- a\n- b" the summarize handler answers
exactly the expected markup — and content that does not start with a dash
passes through `formatSummary` unchanged. -/
theorem C8_bulletReformatting :
    summarizeHandler (some "some article")
        (Except.ok { ok := true, content := some "- a\n- b" })
      = SummarizeResult.success
          "<ul style=\"padding-left:1.5em;list-style:disc;\"><li>a</li><li>b</li></ul>"
    ∧ ∀ c : String, startsWithDash c = false → formatSummary c = c := by
  constructor
  · decide
  · intro c hcs
    simp [formatSummary, hcs]

/-- Witness for C8: the bullet instance together with a concrete
non-bullet content passing through unchanged. -/
theorem C8_witness :
    summarizeHandler (some "some article")
        (Except.ok { ok := true, content := some "- a\n- b" })
      = SummarizeResult.success
          "<ul style=\"padding-left:1.5em;list-style:disc;\"><li>a</li><li>b</li></ul>"
    ∧ (startsWithDash "plain text" = false
        ∧ formatSummary "plain text" = "plain text") :=
  ⟨C8_bulletReformatting.1,
   by decide,
   C8_bulletReformatting.2 "plain text" (by decide)⟩

/-- C9: with in-range wall-clock fields, the scheduler targets tomorrow
07:00:00.000 EST when the current EST hour is ≥ 7 and today 07:00:00.000
EST otherwise, the armed delay is target minus now, and that delay is
always positive and at most 24 hours. -/
theorem C9_schedulerDelayBounds (t : ESTClock)
    (hh : t.hour < 24) (hm : t.minute < 60) (hs : t.second < 60)
    (hms : t.ms < 1000) :
    (7 ≤ t.hour → nextFetchTargetMs t = 86400000 + 7 * 3600000)
    ∧ (t.hour < 7 → nextFetchTargetMs t = 7 * 3600000)
    ∧ timeUntilNextFetch t = nextFetchTargetMs t - (timeOfDayMs t : Int)
    ∧ 0 < timeUntilNextFetch t
    ∧ timeUntilNextFetch t ≤ 86400000 := by
  refine ⟨?_, ?_, rfl, ?_, ?_⟩
  · intro h7
    simp [nextFetchTargetMs, targetDayOffset, h7]
  · intro h7
    simp [nextFetchTargetMs, targetDayOffset, Nat.not_le.mpr h7]
  · unfold timeUntilNextFetch nextFetchTargetMs targetDayOffset timeOfDayMs
    split <;> push_cast <;> omega
  · unfold timeUntilNextFetch nextFetchTargetMs targetDayOffset timeOfDayMs
    split <;> push_cast <;> omega

/-- Witness for C9 at 09:30:00.000 EST. -/
theorem C9_witness :
    (9 < 24 ∧ 30 < 60 ∧ 0 < 60 ∧ 0 < 1000)
    ∧ ((7 ≤ (9 : Nat) →
          nextFetchTargetMs ⟨9, 30, 0, 0⟩ = 86400000 + 7 * 3600000)
        ∧ ((9 : Nat) < 7 → nextFetchTargetMs ⟨9, 30, 0, 0⟩ = 7 * 3600000)
        ∧ timeUntilNextFetch ⟨9, 30, 0, 0⟩
            = nextFetchTargetMs ⟨9, 30, 0, 0⟩
              - (timeOfDayMs ⟨9, 30, 0, 0⟩ : Int)
        ∧ 0 < timeUntilNextFetch ⟨9, 30, 0, 0⟩
        ∧ timeUntilNextFetch ⟨9, 30, 0, 0⟩ ≤ 86400000) :=
  ⟨⟨by decide, by decide, by decide, by decide⟩,
   C9_schedulerDelayBounds ⟨9, 30, 0, 0⟩ (by decide) (by decide) (by decide)
     (by decide)⟩

/-- C10: `POST /api/fetch-now` always answers 200 with `articlesCount`
equal to the length of the cache left by the forced cycle and `lastFetch`
equal to its `lastFetchDate`; when every feed fails the count is 0 and the
previously cached articles are gone — the cache holds the empty list. -/
theorem C10_fetchNowReports (results : List (Option Feed))
    (pd : String → Option Int) (nowMs : Nat) (nowIso : String) (c : Cache) :
    (fetchNowHandler results pd nowMs nowIso c).1.status = 200
    ∧ (fetchNowHandler results pd nowMs nowIso c).1.articlesCount
        = (fetchNowHandler results pd nowMs nowIso c).2.articles.length
    ∧ (fetchNowHandler results pd nowMs nowIso c).1.lastFetch
        = (fetchNowHandler results pd nowMs nowIso c).2.lastFetchDate
    ∧ ((∀ r ∈ results, r = none) →
        (fetchNowHandler results pd nowMs nowIso c).1.articlesCount = 0
        ∧ (fetchNowHandler results pd nowMs nowIso c).2.articles = []) := by
  refine ⟨rfl, rfl, rfl, fun h => ?_⟩
  have hempty : jsSort pd (fetchAllItems results) = [] := by
    rw [fetchAllItems_of_allFail results h]
    rfl
  constructor
  · show (jsSort pd (fetchAllItems results)).length = 0
    rw [hempty]
    rfl
  · show jsSort pd (fetchAllItems results) = []
    exact hempty

/-- Witness for C10: a forced fetch with both feeds down over a non-empty
cache answers 200, count 0, and leaves an empty article list. -/
theorem C10_witness :
    (fetchNowHandler [none, none] pdDemo 7 "2026-10-13T11:00:00.000Z"
        cacheNonEmpty).1.status = 200
    ∧ (fetchNowHandler [none, none] pdDemo 7 "2026-10-13T11:00:00.000Z"
        cacheNonEmpty).1.articlesCount = 0
    ∧ (fetchNowHandler [none, none] pdDemo 7 "2026-10-13T11:00:00.000Z"
        cacheNonEmpty).2.articles = [] :=
  ⟨(C10_fetchNowReports [none, none] pdDemo 7 "2026-10-13T11:00:00.000Z"
      cacheNonEmpty).1,
   ((C10_fetchNowReports [none, none] pdDemo 7 "2026-10-13T11:00:00.000Z"
      cacheNonEmpty).2.2.2 (by decide)).1,
   ((C10_fetchNowReports [none, none] pdDemo 7 "2026-10-13T11:00:00.000Z"
      cacheNonEmpty).2.2.2 (by decide)).2⟩

end AdLog
